import Mathlib

/-!
Verification of the `cdumay_error_json` crate: a structured error
classification and conversion layer that maps `serde_json` failure
categories to typed error kinds (identifier, HTTP status, description)
and converts a raw parse failure plus message and context into a
structured error value.

The embedding follows `src/lib.rs`. Parts that live in the external
`cdumay_error` framework (the expansions of `define_kinds!` and
`define_errors!`, the `Error` value, the setters) and the
`convert_result!` macro are modelled from the specification, as marked
on each definition.
-/

/-- The `serde_json::error::Category` enumeration: the external parser's
classification of a raw failure into one of exactly four categories. -/
inductive Category where
  | Io : Category
  | Syntax : Category
  | Data : Category
  | Eof : Category
deriving DecidableEq, Repr

/-- All four categories: the whole domain of `classify()`. -/
def Category.all : List Category := [.Io, .Syntax, .Data, .Eof]

/-- A structured metadata value (`serde_value::Value`): nested scalars,
sequences and string-keyed mappings. -/
inductive SValue where
  | unit : SValue
  | bool : Bool → SValue
  | int : Int → SValue
  | str : String → SValue
  | seq : List SValue → SValue
  | map : List (String × SValue) → SValue

/-- The context mapping (`BTreeMap<String, serde_value::Value>`): its list
of entries in ascending key order, keys unique. -/
abbrev Context := List (String × SValue)

/-- Modelled from the spec: the external framework's `ErrorKind`, an
immutable triple of a stable identifier (`message_id`), an HTTP-style
status and a short description. -/
structure ErrorKind where
  message_id : String
  status : Nat
  description : String
deriving DecidableEq, Repr

/-- The kind `JsonSyntax = ("JSON-00001", 400, "Syntax Error")` from the
`define_kinds!` block of `src/lib.rs`. -/
def JsonSyntax : ErrorKind :=
  { message_id := "JSON-00001", status := 400, description := "Syntax Error" }

/-- The kind `JsonData = ("JSON-00002", 400, "Invalid JSON data")` from the
`define_kinds!` block of `src/lib.rs`. -/
def JsonData : ErrorKind :=
  { message_id := "JSON-00002", status := 400, description := "Invalid JSON data" }

/-- The kind `JsonEof = ("JSON-00003", 500, "Reached the end of the input data")`
from the `define_kinds!` block of `src/lib.rs`. -/
def JsonEof : ErrorKind :=
  { message_id := "JSON-00003", status := 500, description := "Reached the end of the input data" }

/-- The kind `JsonIo = ("JSON-00004", 500, "Syntax Error")` from the
`define_kinds!` block of `src/lib.rs`. The description string in the
source is literally `"Syntax Error"`. -/
def JsonIo : ErrorKind :=
  { message_id := "JSON-00004", status := 500, description := "Syntax Error" }

/-- Modelled from the spec: the external framework's polymorphic
structured error value (`cdumay_error::Error`): an `ErrorKind` plus a
message and a details mapping. -/
structure Error where
  kind : ErrorKind
  message : String
  details : Context

/-- Modelled from the spec: a typed error binding generated by
`define_errors!` — structurally a structured error pinned to one
specific `ErrorKind`, refined via builder-style setters. -/
structure TypedError where
  kind : ErrorKind
  message : String
  details : Context

/-- Modelled from the spec: the message-setter — returns the value with
`message` replaced. -/
def TypedError.set_message (e : TypedError) (text : String) : TypedError :=
  { e with message := text }

/-- Modelled from the spec: the details-setter — returns the value with
`details` replaced (full replace, not merge). -/
def TypedError.set_details (e : TypedError) (context : Context) : TypedError :=
  { e with details := context }

/-- Modelled from the spec: conversion of a typed error binding into the
common polymorphic structured error value (the `.into()` call). -/
def TypedError.into (e : TypedError) : Error :=
  { kind := e.kind, message := e.message, details := e.details }

/-- Modelled from the spec: `IoError::new()` — a fresh binding pinned to
the `JsonIo` kind with empty message and empty details. -/
def IoError.new : TypedError :=
  { kind := JsonIo, message := "", details := [] }

/-- Modelled from the spec: ` SyntaxError::new()` — a fresh binding
pinned to the `JsonSyntax` kind with empty message and empty details. -/
def SyntaxError.new : TypedError :=
  { kind := JsonSyntax, message := "", details := [] }

/-- Modelled from the spec: `DataError::new()` — a fresh binding pinned
to the `JsonData` kind with empty message and empty details. -/
def DataError.new : TypedError :=
  { kind := JsonData, message := "", details := [] }

/-- Modelled from the spec: `EofError::new()` — a fresh binding pinned to
the `JsonEof` kind with empty message and empty details. -/
def EofError.new : TypedError :=
  { kind := JsonEof, message := "", details := [] }

/-- The raw external failure (`serde_json::Error`): the converter only
uses its `classify()` capability; the raw error also carries its own
message text and position, which the converter never reads. -/
structure RawFailure where
  classification : Category
  errText : String
  line : Nat
  column : Nat
deriving DecidableEq, Repr

/-- `serde_json::Error::classify()`: the failure's category. -/
def RawFailure.classify (e : RawFailure) : Category :=
  e.classification

/-- `JsonError::convert` from `src/lib.rs`: match on `err.classify()` and
dispatch to exactly one typed error binding, setting message and
details, then converting into the polymorphic `Error`. -/
def JsonError.convert (err : RawFailure) (text : String) (context : Context) : Error :=
  match err.classify with
  | Category.Io => ((IoError.new.set_message text).set_details context).into
  | Category.Syntax => ((SyntaxError.new.set_message text).set_details context).into
  | Category.Data => ((DataError.new.set_message text).set_details context).into
  | Category.Eof => ((EofError.new.set_message text).set_details context).into

/-- Modelled from the spec: the `convert_result!` convenience macro — on
the success path a no-op pass-through of the parsed value, on the error
path it invokes the converter on the raw failure with the supplied
message and context. -/
def convert_result {α : Type} (r : Except RawFailure α) (context : Context) (text : String) :
    Except Error α :=
  match r with
  | Except.ok v => Except.ok v
  | Except.error e => Except.error (JsonError.convert e text context)

/-- C1: for every raw parser failure, message and context, `convert`
follows the dispatch table exactly — classification `Io` yields kind
JSON-00004 with status 500, `Syntax` yields JSON-00001 with status 400,
`Data` yields JSON-00002 with status 400, `Eof` yields JSON-00003 with
status 500 — and no two classifications produce the same identifier. -/
theorem C1_convert_dispatch_table (err : RawFailure) (text : String) (ctx : Context) :
    (err.classify = Category.Io →
      (JsonError.convert err text ctx).kind.message_id = "JSON-00004" ∧
      (JsonError.convert err text ctx).kind.status = 500) ∧
    (err.classify = Category.Syntax →
      (JsonError.convert err text ctx).kind.message_id = "JSON-00001" ∧
      (JsonError.convert err text ctx).kind.status = 400) ∧
    (err.classify = Category.Data →
      (JsonError.convert err text ctx).kind.message_id = "JSON-00002" ∧
      (JsonError.convert err text ctx).kind.status = 400) ∧
    (err.classify = Category.Eof →
      (JsonError.convert err text ctx).kind.message_id = "JSON-00003" ∧
      (JsonError.convert err text ctx).kind.status = 500) ∧
    (∀ f1 f2 : RawFailure,
      (JsonError.convert f1 text ctx).kind.message_id =
        (JsonError.convert f2 text ctx).kind.message_id →
      f1.classify = f2.classify) := by
  refine ⟨?_, ?_, ?_, ?_, ?_⟩
  · intro h; unfold JsonError.convert; rw [h]; exact ⟨rfl, rfl⟩
  · intro h; unfold JsonError.convert; rw [h]; exact ⟨rfl, rfl⟩
  · intro h; unfold JsonError.convert; rw [h]; exact ⟨rfl, rfl⟩
  · intro h; unfold JsonError.convert; rw [h]; exact ⟨rfl, rfl⟩
  · intro f1 f2 h
    obtain ⟨c1, s1, l1, o1⟩ := f1
    obtain ⟨c2, s2, l2, o2⟩ := f2
    cases c1 <;> cases c2 <;>
      simp_all [JsonError.convert, RawFailure.classify, IoError.new, SyntaxError.new,
        DataError.new, EofError.new, TypedError.set_message, TypedError.set_details,
        TypedError.into, JsonIo, JsonSyntax, JsonData, JsonEof]

/-- Witness for C1 at a concrete IO failure. -/
theorem C1_convert_dispatch_table_witness :
    (JsonError.convert ⟨Category.Io, "boom", 0, 0⟩ "Test IO error" []).kind.message_id =
      "JSON-00004" ∧
    (JsonError.convert ⟨Category.Io, "boom", 0, 0⟩ "Test IO error" []).kind.status = 500 :=
  (C1_convert_dispatch_table ⟨Category.Io, "boom", 0, 0⟩ "Test IO error" []).1 rfl

/-- C2: the registered taxonomy as the source defines it. JSON-00001,
JSON-00002 and JSON-00003 match the claimed table, but the source
declares the description of JSON-00004 (the `JsonIo` kind) as
"Syntax Error", not "IO Error" as the claim states. -/
theorem C2_taxonomy_code_eval :
    JsonSyntax = { message_id := "JSON-00001", status := 400, description := "Syntax Error" } ∧
    JsonData = { message_id := "JSON-00002", status := 400, description := "Invalid JSON data" } ∧
    JsonEof = { message_id := "JSON-00003", status := 500,
                description := "Reached the end of the input data" } ∧
    JsonIo.message_id = "JSON-00004" ∧ JsonIo.status = 500 ∧
    JsonIo.description = "Syntax Error" ∧ JsonIo.description ≠ "IO Error" := by
  refine ⟨rfl, rfl, rfl, rfl, rfl, rfl, ?_⟩
  decide

/-- C3: for every raw failure, message string and context map, the
structured error returned by `convert` carries the message and the
details verbatim; in particular an empty context yields an empty
details mapping. -/
theorem C3_convert_message_details_verbatim (err : RawFailure) (text : String) (ctx : Context) :
    (JsonError.convert err text ctx).message = text ∧
    (JsonError.convert err text ctx).details = ctx ∧
    (JsonError.convert err text []).details = [] := by
  obtain ⟨c, s, l, o⟩ := err
  cases c <;> exact ⟨rfl, rfl, rfl⟩

/-- C4: the converter is total over the classification domain — every
raw failure's classification occurs exactly once among the four table
rows, and `convert` always returns the structured error built by
exactly one typed binding; there is no fallback branch and no failure
path. -/
theorem C4_convert_total_exhaustive (err : RawFailure) (text : String) (ctx : Context) :
    Category.all.count err.classify = 1 ∧
    ∃ b : TypedError, b ∈ [IoError.new, SyntaxError.new, DataError.new, EofError.new] ∧
      JsonError.convert err text ctx = ((b.set_message text).set_details ctx).into := by
  obtain ⟨c, s, l, o⟩ := err
  cases c
  · exact ⟨rfl, IoError.new, by simp, rfl⟩
  · exact ⟨rfl, SyntaxError.new, by simp, rfl⟩
  · exact ⟨rfl, DataError.new, by simp, rfl⟩
  · exact ⟨rfl, EofError.new, by simp, rfl⟩

/-- C5: the setters are idempotent — applying the message-setter twice
with the same string, or the details-setter twice with the same map,
yields the same value as applying it once. -/
theorem C5_setters_idempotent (e : TypedError) (m : String) (c : Context) :
    (e.set_message m).set_message m = e.set_message m ∧
    (e.set_details c).set_details c = e.set_details c :=
  ⟨rfl, rfl⟩

/-- C6: the details-setter fully replaces rather than merges — after
setting details to `c1` and then to `c2`, the details are exactly `c2`,
and the result is indistinguishable from having set `c2` alone. -/
theorem C6_set_details_full_replace (e : TypedError) (c1 c2 : Context) :
    ((e.set_details c1).set_details c2).details = c2 ∧
    (e.set_details c1).set_details c2 = e.set_details c2 :=
  ⟨rfl, rfl⟩

/-- C7: each zero-argument constructor produces a value pinned to its
one specific kind (IoError↔JSON-00004, SyntaxError↔JSON-00001,
DataError↔JSON-00002, EofError↔JSON-00003) with empty message and
empty details. -/
theorem C7_constructors_pinned_empty :
    IoError.new = { kind := JsonIo, message := "", details := [] } ∧
    IoError.new.kind.message_id = "JSON-00004" ∧
    SyntaxError.new = { kind := JsonSyntax, message := "", details := [] } ∧
    SyntaxError.new.kind.message_id = "JSON-00001" ∧
    DataError.new = { kind := JsonData, message := "", details := [] } ∧
    DataError.new.kind.message_id = "JSON-00002" ∧
    EofError.new = { kind := JsonEof, message := "", details := [] } ∧
    EofError.new.kind.message_id = "JSON-00003" :=
  ⟨rfl, rfl, rfl, rfl, rfl, rfl, rfl, rfl⟩

/-- C8: `convert` is deterministic — two invocations with equal failure,
equal message and equal context return equal structured errors. In the
embedding `convert` is a pure function of its three arguments, matching
the source, which reads no global state and performs no I/O. -/
theorem C8_convert_deterministic (e1 e2 : RawFailure) (t1 t2 : String) (c1 c2 : Context)
    (he : e1 = e2) (ht : t1 = t2) (hc : c1 = c2) :
    JsonError.convert e1 t1 c1 = JsonError.convert e2 t2 c2 := by
  rw [he, ht, hc]

/-- Witness for C8 at a concrete failure, message and context. -/
theorem C8_convert_deterministic_witness :
    JsonError.convert ⟨Category.Data, "type mismatch", 1, 9⟩ "msg" [("test", SValue.str "value")] =
      JsonError.convert ⟨Category.Data, "type mismatch", 1, 9⟩ "msg"
        [("test", SValue.str "value")] :=
  C8_convert_deterministic _ _ _ _ _ _ rfl rfl rfl

/-- C9: the convenience wrapper returns the contained value unchanged on
the success path, and on the error path returns the error obtained by
invoking the converter on the raw failure; for a syntax failure that
error's kind identifier is JSON-00001. -/
theorem C9_convert_result_paths {α : Type} (v : α) (e : RawFailure) (ctx : Context)
    (text : String) :
    convert_result (Except.ok v) ctx text = Except.ok v ∧
    convert_result (Except.error e : Except RawFailure α) ctx text =
      Except.error (JsonError.convert e text ctx) ∧
    (e.classify = Category.Syntax →
      (JsonError.convert e text ctx).kind.message_id = "JSON-00001") := by
  refine ⟨rfl, rfl, ?_⟩
  intro h
  unfold JsonError.convert
  rw [h]
  rfl

/-- Witness for C9 at a concrete syntax failure, context and message. -/
theorem C9_convert_result_paths_witness :
    convert_result (Except.ok (0 : Nat)) [] "Test error" = Except.ok 0 ∧
    convert_result (Except.error ⟨Category.Syntax, "invalid json", 1, 1⟩ : Except RawFailure Nat)
        [("test", SValue.str "value")] "Test error" =
      Except.error (JsonError.convert ⟨Category.Syntax, "invalid json", 1, 1⟩ "Test error"
        [("test", SValue.str "value")]) ∧
    (JsonError.convert ⟨Category.Syntax, "invalid json", 1, 1⟩ "Test error"
        [("test", SValue.str "value")]).kind.message_id = "JSON-00001" := by
  have h := C9_convert_result_paths (0 : Nat) ⟨Category.Syntax, "invalid json", 1, 1⟩
    [("test", SValue.str "value")] "Test error"
  exact ⟨h.1, h.2.1, h.2.2 rfl⟩

/-- C10: `convert` depends on the raw failure only through its
classification — failures with equal `classify()` results yield equal
structured errors for the same message and context — and the raw
failure's own message text and position never appear in the returned
error, whose message and details are exactly the caller's. -/
theorem C10_convert_depends_only_on_classification (e1 e2 : RawFailure) (text : String)
    (ctx : Context) (h : e1.classify = e2.classify) :
    JsonError.convert e1 text ctx = JsonError.convert e2 text ctx ∧
    (JsonError.convert e1 text ctx).message = text ∧
    (JsonError.convert e1 text ctx).details = ctx := by
  constructor
  · unfold JsonError.convert
    rw [h]
  · obtain ⟨c, s, l, o⟩ := e1
    cases c <;> exact ⟨rfl, rfl⟩

/-- Witness for C10: two EOF failures with different raw texts and
positions convert identically. -/
theorem C10_convert_depends_only_on_classification_witness :
    JsonError.convert ⟨Category.Eof, "EOF while parsing an object", 1, 15⟩ "msg" [] =
      JsonError.convert ⟨Category.Eof, "unexpected end of input", 7, 3⟩ "msg" [] ∧
    (JsonError.convert ⟨Category.Eof, "EOF while parsing an object", 1, 15⟩ "msg" []).message =
      "msg" ∧
    (JsonError.convert ⟨Category.Eof, "EOF while parsing an object", 1, 15⟩ "msg" []).details =
      [] :=
  C10_convert_depends_only_on_classification ⟨Category.Eof, "EOF while parsing an object", 1, 15⟩
    ⟨Category.Eof, "unexpected end of input", 7, 3⟩ "msg" [] rfl
